import Mathlib

/-
Verification development for the YugabyteDB Anywhere API client (src/yba.py).

The Python module manipulates parsed JSON documents (Python dicts/lists) and
issues HTTP requests. The embedding below models:
  * JSON values as an inductive `Json`; Python dicts are association lists with
    unique, insertion-ordered keys, so dict indexing, assignment, membership and
    deletion are modelled by `objGet`, `objSet`, `objHas`, `objDel`.
  * Each HTTP interaction as an oracle response supplied as an argument
    (`Except` for requests that can fail); the requests a function issues are
    returned as an explicit, ordered trace.
  * Python exceptions as `Except`/outcome constructors (`PyErr`); time as the
    sequence of clock readings observed at each loop test.
All definitions are translated from src/yba.py; line numbers refer to it.
-/

/-- JSON-like values: the shape of every document exchanged with the API. -/
inductive Json where
  | null
  | bool (b : Bool)
  | num (n : Int)
  | str (s : String)
  | arr (elems : List Json)
  | obj (fields : List (String × Json))

/-- Python dict lookup `d.get(k)` on an association list (first binding wins;
parsed JSON objects never have duplicate keys). -/
def objGet (fields : List (String × Json)) (k : String) : Option Json :=
  (fields.find? (fun p => p.1 == k)).map (fun p => p.2)

/-- Python dict assignment `d[k] = v`: replace in place when the key exists,
append at the end otherwise (insertion order is preserved, as in CPython). -/
def objSet (fields : List (String × Json)) (k : String) (v : Json) : List (String × Json) :=
  match fields with
  | [] => [(k, v)]
  | (k', v') :: rest => if k' == k then (k, v) :: rest else (k', v') :: objSet rest k v

/-- Python membership test `k in d` for a dict. -/
def objHas (fields : List (String × Json)) (k : String) : Bool :=
  fields.any (fun p => p.1 == k)

/-- Python `if k in d: del d[k]` — delete the key when present, no-op otherwise. -/
def objDelIfPresent (fields : List (String × Json)) (k : String) : List (String × Json) :=
  if objHas fields k then fields.filter (fun p => p.1 != k) else fields

/-- Python `del d[k]`: `none` models the KeyError raised when the key is absent. -/
def objDel (fields : List (String × Json)) (k : String) : Option (List (String × Json)) :=
  if objHas fields k then some (fields.filter (fun p => p.1 != k)) else none

/-- Python `d.get(k, default)` on a parsed JSON document (the source only applies
`.get` to objects; a non-object yields the default here). -/
def Json.getD (j : Json) (k : String) (d : Json) : Json :=
  match j with
  | .obj fields => (objGet fields k).getD d
  | _ => d

/-- Python `k in d` on a parsed JSON document (the source only applies it to objects). -/
def Json.hasKey (j : Json) (k : String) : Bool :=
  match j with
  | .obj fields => objHas fields k
  | _ => false

/-- Python truthiness of a parsed JSON value. -/
def Json.truthy : Json → Bool
  | .null => false
  | .bool b => b
  | .num n => n != 0
  | .str s => s != ""
  | .arr elems => !elems.isEmpty
  | .obj fields => !fields.isEmpty

/-- Whether a JSON value is an object. -/
def Json.isObject : Json → Bool
  | .obj _ => true
  | _ => false

/-- Python exceptions the client can raise while manipulating documents. -/
inductive PyErr where
  | keyError (key : String)
  | typeError
  | attributeError (attr : String)
  | valueError (raw : Json)
  | runtimeError (msg : String)

/-- Extract the fields of a JSON object; a non-object is a Python type error
(indexing or iterating a value of the wrong shape). -/
def Json.asObjE : Json → Except PyErr (List (String × Json))
  | .obj fields => Except.ok fields
  | _ => Except.error PyErr.typeError

/-- Python dict indexing `d[k]`: KeyError when absent, type error on a non-dict. -/
def jsonIndex (j : Json) (k : String) : Except PyErr Json :=
  match j with
  | Json.obj fields =>
    match objGet fields k with
    | some v => Except.ok v
    | none => Except.error (PyErr.keyError k)
  | _ => Except.error PyErr.typeError

/-- Effectful map over a list that stops at the first raised exception, the way a
Python for-loop propagates an exception from its body. -/
def exceptMapM {α β ε : Type} (f : α → Except ε β) : List α → Except ε (List β)
  | [] => Except.ok []
  | a :: rest =>
    match f a with
    | Except.error e => Except.error e
    | Except.ok b =>
      match exceptMapM f rest with
      | Except.error e => Except.error e
      | Except.ok bs => Except.ok (b :: bs)

/-
Task poller: invoke_yba_request, lines 112-142.
A task-status document is read at lines 136 via direct indexing of `percent`
and `status`; the poller only ever inspects those two fields, so a fetched
task is modelled by them.
-/

/-- A polled task-status document: the two fields line 136 reads. -/
structure TaskResp where
  percent : Int
  status : String
deriving Repr, DecidableEq

/-- Line 136: the test deciding that the invoked task has finished. -/
def taskFinished (t : TaskResp) : Bool :=
  t.percent == 100 || (t.status == "Aborted" || t.status == "Failure")

/-- Outcome of one in-flight task fetch (lines 119-133): a parsed task document,
a transport failure, or a body that is not JSON. -/
inductive TaskFetch where
  | ok (t : TaskResp)
  | transportError
  | notJson
deriving Repr, DecidableEq

/-- How a call to invoke_yba_request ends. -/
inductive InvokeOutcome where
  | response (j : Json)
  | returned (t : TaskResp)
  | fetchError
  | parseError
  | unboundLocal
  | pending

/-- Lines 117-142: the polling loop. Each trace element is one pass of the
while-test: the elapsed seconds `time.time() - start` observed at the test,
paired with what the task fetch would yield if the body runs. `last` is the
current value of the loop-local variable json_task_response (`none` before the
first fetch). When the while-test fails the function returns that variable
(line 142); if no fetch ever ran the variable is unbound and the return
statement raises (modelled by `.unboundLocal`). An exhausted trace while the
loop would continue is `.pending`. -/
def pollLoop (wait_timeout : Int) : List (Int × TaskFetch) → Option TaskResp → InvokeOutcome
  | [], _ => InvokeOutcome.pending
  | (elapsed, fetch) :: rest, last =>
    if elapsed < wait_timeout then
      match fetch with
      | TaskFetch.transportError => InvokeOutcome.fetchError
      | TaskFetch.notJson => InvokeOutcome.parseError
      | TaskFetch.ok t =>
        if taskFinished t then InvokeOutcome.returned t
        else pollLoop wait_timeout rest (some t)
    else
      match last with
      | some t => InvokeOutcome.returned t
      | none => InvokeOutcome.unboundLocal

/-- Lines 112-142 of invoke_yba_request, after the initial response has been
parsed: return the response unchanged unless waiting was requested, the
response carries a task handle, and a customer id was supplied; otherwise poll. -/
def invokeWaitPhase (wait : Bool) (customer_id : String) (json_response : Json)
    (wait_timeout : Int) (trace : List (Int × TaskFetch)) : InvokeOutcome :=
  if !wait || !(json_response.hasKey "taskUUID") || customer_id == "" then
    InvokeOutcome.response json_response
  else
    pollLoop wait_timeout trace none

/-
Release reconciler: create_yba_release, lines 520-662.
-/

/-- One artifact of a release; the client reads `architecture` and writes the
three fields of the appended dict (line 645). Fields it never touches are
carried opaquely in `extra`. -/
structure Artifact where
  package_url : String
  platform : String
  architecture : String
  extra : List (String × String)
deriving Repr, DecidableEq

/-- A release as listed by the API; the client reads `version`, `artifacts`
and `release_uuid`, everything else rides along in `extra`. -/
structure Release where
  version : String
  release_uuid : String
  artifacts : List Artifact
  extra : List (String × String)
deriving Repr, DecidableEq

/-- The metadata fields the extraction job delivers and lines 600-648 read.
The dict reads are hoisted here from the branches of create_yba_release; the
extractor returns these as JSON strings (release_date_msecs as a number). -/
structure ExtractedMeta where
  version : String
  yb_type : String
  platform : String
  architecture : String
  release_type : String
  release_date_msecs : Int
deriving Repr, DecidableEq

/-- What the reconciliation part of create_yba_release returns: the response of
a create POST (payload rendered from templates/release.json with the given
parameters), an existing release returned without any request (line 640), or
the response of a full-object update PUT (lines 654-662). -/
inductive ReleaseResult where
  | createResponse (params : ExtractedMeta) (package_url : String)
  | existing (release : Release)
  | updateResponse (release_uuid : String) (payload : Release)
deriving Repr, DecidableEq

/-- Mutating requests create_yba_release can issue. -/
inductive ReleaseRequest where
  | createRelease (params : ExtractedMeta) (package_url : String)
  | updateRelease (release_uuid : String) (payload : Release)
deriving Repr, DecidableEq

/-- The mutating requests implied by a reconciliation outcome. -/
def releaseRequests : ReleaseResult → List ReleaseRequest
  | ReleaseResult.createResponse meta url => [ReleaseRequest.createRelease meta url]
  | ReleaseResult.existing _ => []
  | ReleaseResult.updateResponse uuid payload => [ReleaseRequest.updateRelease uuid payload]

/-- Lines 599-662: given the fetched release inventory and the extracted
metadata, decide whether to create a new release, return an existing one
unchanged, or append the new architecture's artifact to the fetched release and
send the entire modified object back as an update. -/
def reconcileRelease (releases : List Release) (meta : ExtractedMeta) (package_url : String) :
    ReleaseResult :=
  match releases.find? (fun release => release.version == meta.version) with
  | none => ReleaseResult.createResponse meta package_url
  | some release =>
    match release.artifacts.find? (fun package => package.architecture == meta.architecture) with
    | some _ => ReleaseResult.existing release
    | none =>
      ReleaseResult.updateResponse release.release_uuid
        { release with
          artifacts := release.artifacts ++
            [{ package_url := package_url, platform := meta.platform,
               architecture := meta.architecture, extra := [] }] }

/-
Extraction poller: create_yba_release, lines 553-589.
-/

/-- Outcome of one extraction-status fetch (lines 573-584). A non-JSON body
would raise out of `.json()` unguarded; the claims never exercise it, so a
fetch either yields the parsed document or a transport failure. -/
inductive MetaFetch where
  | ok (j : Json)
  | transportError

/-- How the extraction phase ends. -/
inductive ExtractionOutcome where
  | done (metadata : Json)
  | failed (e : PyErr)
  | pending

/-- Line 571's loop-continuation test on the current metadata document:
`not 'status' in metadata or metadata['status'] == 'running'`. -/
def extractionRunning (m : Json) : Bool :=
  !(m.hasKey "status") ||
    (match m.getD "status" Json.null with
     | Json.str s => s == "running"
     | _ => false)

/-- Lines 570-586: the extraction polling loop. Trace elements are as in
`pollLoop`: elapsed seconds at the while-test plus the fetch the body would
perform. `m` is the current metadata document. -/
def extractionLoop : List (Int × MetaFetch) → Json → ExtractionOutcome
  | [], _ => ExtractionOutcome.pending
  | (elapsed, fetch) :: rest, m =>
    if elapsed < 30 && extractionRunning m then
      match fetch with
      | MetaFetch.transportError => ExtractionOutcome.failed (PyErr.runtimeError "API request for package metadata retrieval progress failed")
      | MetaFetch.ok m' => extractionLoop rest m'
    else
      ExtractionOutcome.done m

/-- Lines 553-589: the whole extraction phase. The initial POST response must
carry `resourceUUID` (line 563 raises a ValueError citing the raw response);
after the loop the final document must carry `version`. Line 589 means to raise
a ValueError carrying the raw response, but the f-string it builds evaluates
`metadata.text` on a parsed dict, so what is actually raised is an
AttributeError carrying no response at all. -/
def extractMetadataPhase (initResp : Except PyErr Json) (trace : List (Int × MetaFetch)) :
    ExtractionOutcome :=
  match initResp with
  | Except.error e => ExtractionOutcome.failed e
  | Except.ok metadata =>
    if !(metadata.hasKey "resourceUUID") then
      ExtractionOutcome.failed (PyErr.valueError metadata)
    else
      match extractionLoop trace metadata with
      | ExtractionOutcome.pending => ExtractionOutcome.pending
      | ExtractionOutcome.failed e => ExtractionOutcome.failed e
      | ExtractionOutcome.done m =>
        if m.hasKey "version" then ExtractionOutcome.done m
        else ExtractionOutcome.failed (PyErr.attributeError "text")

/-- Expect a JSON string (the extractor's scalar fields). -/
def expectString (j : Json) : Except PyErr String :=
  match j with
  | Json.str s => Except.ok s
  | _ => Except.error PyErr.typeError

/-- Expect a JSON number. -/
def expectInt (j : Json) : Except PyErr Int :=
  match j with
  | Json.num n => Except.ok n
  | _ => Except.error PyErr.typeError

/-- The dict reads of lines 600-612 and 637-648, hoisted: every metadata field
create_yba_release indexes after the version check. -/
def parseExtractedMeta (m : Json) : Except PyErr ExtractedMeta := do
  let version ← expectString (← jsonIndex m "version")
  let yb_type ← expectString (← jsonIndex m "yb_type")
  let platform ← expectString (← jsonIndex m "platform")
  let architecture ← expectString (← jsonIndex m "architecture")
  let release_type ← expectString (← jsonIndex m "release_type")
  let release_date_msecs ← expectInt (← jsonIndex m "release_date_msecs")
  Except.ok { version := version, yb_type := yb_type, platform := platform,
              architecture := architecture, release_type := release_type,
              release_date_msecs := release_date_msecs }

/-- How a whole create_yba_release call ends. -/
inductive ReleaseRunResult where
  | failed (e : PyErr)
  | pending
  | done (r : ReleaseResult)

/-- create_yba_release end to end (lines 553-662): run the extraction phase,
then fetch the inventory and reconcile. The trace lists only the mutating
requests; an exception anywhere aborts the whole call with no request issued. -/
def create_yba_release_run (initResp : Except PyErr Json) (trace : List (Int × MetaFetch))
    (releasesResp : Except PyErr (List Release)) (package_url : String) :
    List ReleaseRequest × ReleaseRunResult :=
  match extractMetadataPhase initResp trace with
  | ExtractionOutcome.pending => ([], ReleaseRunResult.pending)
  | ExtractionOutcome.failed e => ([], ReleaseRunResult.failed e)
  | ExtractionOutcome.done m =>
    match parseExtractedMeta m with
    | Except.error e => ([], ReleaseRunResult.failed e)
    | Except.ok meta =>
      match releasesResp with
      | Except.error e => ([], ReleaseRunResult.failed e)
      | Except.ok releases =>
        let result := reconcileRelease releases meta package_url
        (releaseRequests result, ReleaseRunResult.done result)

/-
Node transform: _replicate_yba_kubernetes_universe_node_details, lines 969-1030.
-/

/-- Python `node.get(k)` on a source node: null when the key is absent. -/
def nodeGet (fields : List (String × Json)) (k : String) : Json :=
  (objGet fields k).getD Json.null

/-- Lines 1014-1020: strip the runtime-only keys from a node's cloudInfo
(which the API delivers as a JSON object). -/
def cleanCloudInfo : Json → Except PyErr (List (String × Json))
  | Json.obj cif =>
    Except.ok (objDelIfPresent (objDelIfPresent (objDelIfPresent cif
      "kubernetesPodName") "kubernetesNamespace") "private_ip")
  | _ => Except.error PyErr.typeError

/-- Lines 981-1028: the per-node transform. The target dict literal copies the
listed fields (state is forced to ToBeAdded), the cloudInfo is stripped of
runtime-only keys, and a truthy isMaster adds masterState, isRedisServer and
overwrites dedicatedTo. Note the literal does not copy isRedisServer. -/
def transformNode (node : Json) : Except PyErr Json :=
  match node.asObjE with
  | Except.error e => Except.error e
  | Except.ok nf =>
  match cleanCloudInfo ((objGet nf "cloudInfo").getD (Json.obj [])) with
  | Except.error e => Except.error e
  | Except.ok ci =>
  let target : List (String × Json) := [
    ("nodeIdx", nodeGet nf "nodeIdx"),
    ("cloudInfo", (objGet nf "cloudInfo").getD (Json.obj [])),
    ("azUuid", nodeGet nf "azUuid"),
    ("placementUuid", nodeGet nf "placementUuid"),
    ("disksAreMountedByUUID", nodeGet nf "disksAreMountedByUUID"),
    ("ybPrebuiltAmi", nodeGet nf "ybPrebuiltAmi"),
    ("autoSyncMasterAddrs", nodeGet nf "autoSyncMasterAddrs"),
    ("state", Json.str "ToBeAdded"),
    ("isMaster", nodeGet nf "isMaster"),
    ("masterHttpPort", nodeGet nf "masterHttpPort"),
    ("masterRpcPort", nodeGet nf "masterRpcPort"),
    ("isTserver", nodeGet nf "isTserver"),
    ("tserverHttpPort", nodeGet nf "tserverHttpPort"),
    ("tserverRpcPort", nodeGet nf "tserverRpcPort"),
    ("ybControllerHttpPort", nodeGet nf "ybControllerHttpPort"),
    ("ybControllerRpcPort", nodeGet nf "ybControllerRpcPort"),
    ("redisServerHttpPort", nodeGet nf "redisServerHttpPort"),
    ("redisServerRpcPort", nodeGet nf "redisServerRpcPort"),
    ("isYqlServer", nodeGet nf "isYqlServer"),
    ("yqlServerHttpPort", nodeGet nf "yqlServerHttpPort"),
    ("yqlServerRpcPort", nodeGet nf "yqlServerRpcPort"),
    ("isYsqlServer", nodeGet nf "isYsqlServer"),
    ("ysqlServerHttpPort", nodeGet nf "ysqlServerHttpPort"),
    ("ysqlServerRpcPort", nodeGet nf "ysqlServerRpcPort"),
    ("internalYsqlServerRpcPort", nodeGet nf "internalYsqlServerRpcPort"),
    ("nodeExporterPort", nodeGet nf "nodeExporterPort"),
    ("otelCollectorMetricsPort", nodeGet nf "otelCollectorMetricsPort"),
    ("cronsActive", nodeGet nf "cronsActive"),
    ("dedicatedTo", nodeGet nf "dedicatedTo")
  ]
  let target' := objSet target "cloudInfo" (Json.obj ci)
  let target'' :=
    if (nodeGet nf "isMaster").truthy then
      objSet (objSet (objSet target'
        "masterState" (Json.str "ToStart"))
        "isRedisServer" (Json.bool true))
        "dedicatedTo" (Json.str "MASTER")
    else target'
  Except.ok (Json.obj target'')

/-- Lines 969-1030: transform a whole nodeDetailsSet. -/
def replicate_yba_kubernetes_universe_node_details (source_nodes : List Json) :
    Except PyErr (List Json) :=
  exceptMapM transformNode source_nodes

/-
Universe replicator: replicate_yba_kubernetes_universe, lines 771-967.
-/

/-- Requests the replicator issues, in order. -/
inductive UniverseRequest where
  | findUniverse (name : String)
  | getUniverse (universe_id : String)
  | configureUniverse (payload : Json)
  | createUniverse (payload : Json)

/-- Whether a request is the create-phase POST. -/
def UniverseRequest.isCreate : UniverseRequest → Bool
  | UniverseRequest.createUniverse _ => true
  | _ => false

/-- What the replicator returns: the configured document when what_if was
requested (the Python serializes it with json.dumps before returning; the
model carries the document, serialization being content-preserving), or the
create call's response. -/
inductive ReplicateResult where
  | previewDoc (doc : Json)
  | created (resp : Json)

/-- The caller-side inputs of replicate_yba_kubernetes_universe, plus the
uuid4 value generated at line 845. -/
structure ReplicateArgs where
  source_name : String
  name : String
  ycql_password : String
  ysql_password : String
  tserver_cpus : Option Int
  tserver_memory : Option Int
  master_cpus : Option Int
  master_memory : Option Int
  tserver_storage : Option Int
  what_if : Bool
  universe_id : String

/-- The remote system's responses to the requests the replicator can issue. -/
structure ReplicateEnv where
  findSourceResp : Except PyErr (List String)
  getSourceResp : Except PyErr Json
  findDestResp : Except PyErr (List String)
  configureResp : Except PyErr Json
  createResp : Except PyErr Json

/-- Lines 929-934: an unguarded resource override
(`cluster['userIntent'][specKey][fieldKey] = v`), applied only when the Python
int argument is truthy (not None and not 0). -/
def applyUnguardedOverride (uif : List (String × Json)) (override : Option Int)
    (specKey fieldKey : String) : Except PyErr (List (String × Json)) :=
  match override with
  | none => Except.ok uif
  | some v =>
    if v == 0 then Except.ok uif
    else
      match objGet uif specKey with
      | some (Json.obj spec) =>
        Except.ok (objSet uif specKey (Json.obj (objSet spec fieldKey (Json.num v))))
      | some _ => Except.error PyErr.typeError
      | none => Except.error (PyErr.keyError specKey)

/-- Lines 936-939: a master override guarded by
`'masterK8SNodeResourceSpec' in cluster['userIntent']`. -/
def applyGuardedMasterOverride (uif : List (String × Json)) (override : Option Int)
    (fieldKey : String) : Except PyErr (List (String × Json)) :=
  match override with
  | none => Except.ok uif
  | some v =>
    if v == 0 || !(objHas uif "masterK8SNodeResourceSpec") then Except.ok uif
    else
      match objGet uif "masterK8SNodeResourceSpec" with
      | some (Json.obj spec) =>
        Except.ok (objSet uif "masterK8SNodeResourceSpec"
          (Json.obj (objSet spec fieldKey (Json.num v))))
      | some _ => Except.error PyErr.typeError
      | none => Except.error (PyErr.keyError "masterK8SNodeResourceSpec")

/-- Lines 922-939: the per-cluster block of the replication loop — rename the
universe, overwrite both passwords, then apply the optional overrides. -/
def applyClusterOverrides (args : ReplicateArgs) (cluster : Json) : Except PyErr Json := do
  let fields ← cluster.asObjE
  let ui ← match objGet fields "userIntent" with
    | some u => Except.ok u
    | none => Except.error (PyErr.keyError "userIntent")
  let uif ← ui.asObjE
  let uif := objSet uif "universeName" (Json.str args.name)
  let uif := objSet uif "ycqlPassword" (Json.str args.ycql_password)
  let uif := objSet uif "ysqlPassword" (Json.str args.ysql_password)
  let uif ← applyUnguardedOverride uif args.tserver_cpus "tserverK8SNodeResourceSpec" "cpuCoreCount"
  let uif ← applyUnguardedOverride uif args.tserver_memory "tserverK8SNodeResourceSpec" "memoryGib"
  let uif ← applyUnguardedOverride uif args.tserver_storage "deviceInfo" "volumeSize"
  let uif ← applyGuardedMasterOverride uif args.master_cpus "cpuCoreCount"
  let uif ← applyGuardedMasterOverride uif args.master_memory "memoryGib"
  Except.ok (Json.obj (objSet fields "userIntent" (Json.obj uif)))

/-- Lines 922-939 applied over configure_universe's cluster list. -/
def overrideClusters (args : ReplicateArgs) (configure_universe : Json) : Except PyErr Json :=
  match configure_universe with
  | Json.obj fields =>
    match objGet fields "clusters" with
    | some (Json.arr cs) =>
      match exceptMapM (applyClusterOverrides args) cs with
      | Except.error e => Except.error e
      | Except.ok cs' => Except.ok (Json.obj (objSet fields "clusters" (Json.arr cs')))
    | some _ => Except.error PyErr.typeError
    | none => Except.error (PyErr.keyError "clusters")
  | _ => Except.error PyErr.typeError

/-- The dict literal of lines 848-913 plus the conditional CA entries of lines
917-920, with the already-computed node list, source node-prefix and
encryption flag plugged in. -/
def buildConfigureBase (src : Json) (args : ReplicateArgs) (nodeDetails : List Json)
    (pre : String) (encVal : Json) : List (String × Json) :=
  let base : List (String × Json) := [
    ("platformVersion", src.getD "platformVersion" Json.null),
    ("sleepAfterMasterRestartMillis", src.getD "sleepAfterMasterRestartMillis" Json.null),
    ("sleepAfterTServerRestartMillis", src.getD "sleepAfterTServerRestartMillis" Json.null),
    ("nodeExporterUser", src.getD "nodeExporterUser" Json.null),
    ("universeUUID", Json.str args.universe_id),
    ("enableYbc", src.getD "enableYbc" Json.null),
    ("installYbc", src.getD "installYbc" Json.null),
    ("ybcInstalled", Json.bool false),
    ("expectedUniverseVersion", src.getD "expectedUniverseVersion" Json.null),
    ("encryptionAtRestConfig", Json.obj [("encryptionAtRestEnabled", encVal)]),
    ("nodeDetailsSet", Json.arr nodeDetails),
    ("communicationPorts", src.getD "communicationPorts" (Json.obj [])),
    ("extraDependencies", src.getD "extraDependencies" (Json.obj [])),
    ("creatingUser", src.getD "creatingUser" (Json.obj [])),
    ("platformUrl", src.getD "platformUrl" Json.null),
    ("clusters", src.getD "clusters" (Json.arr [])),
    ("currentClusterType", src.getD "currentClusterType" Json.null),
    ("nodePrefix", Json.str (pre.stripSuffix args.source_name ++ args.name)),
    ("rootAndClientRootCASame", src.getD "rootAndClientRootCASame" Json.null),
    ("userAZSelected", src.getD "userAZSelected" Json.null),
    ("resetAZConfig", src.getD "resetAZConfig" Json.null),
    ("updateInProgress", src.getD "updateInProgress" Json.null),
    ("updateSucceeded", src.getD "updateSucceeded" Json.null),
    ("universePaused", src.getD "universePaused" Json.null),
    ("softwareUpgradeState", src.getD "softwareUpgradeState" Json.null),
    ("isSoftwareRollbackAllowed", src.getD "isSoftwareRollbackAllowed" Json.null),
    ("nextClusterIndex", src.getD "nextClusterIndex" Json.null),
    ("allowInsecure", src.getD "allowInsecure" Json.null),
    ("setTxnTableWaitCountFlag", src.getD "setTxnTableWaitCountFlag" Json.null),
    ("itestS3PackagePath", src.getD "itestS3PackagePath" Json.null),
    ("remotePackagePath", src.getD "remotePackagePath" Json.null),
    ("nodesResizeAvailable", src.getD "nodesResizeAvailable" Json.null),
    ("useNewHelmNamingStyle", src.getD "useNewHelmNamingStyle" Json.null),
    ("mastersInDefaultRegion", src.getD "mastersInDefaultRegion" Json.null),
    ("isKubernetesOperatorControlled", src.getD "isKubernetesOperatorControlled" Json.null),
    ("overridePrebuiltAmiDBVersion", src.getD "overridePrebuiltAmiDBVersion" Json.null),
    ("sequenceNumber", Json.num (-1)),
    ("importedState", src.getD "importedState" Json.null),
    ("capability", src.getD "capability" Json.null),
    ("updateOptions", src.getD "updateOptions" Json.null),
    ("otelCollectorEnabled", src.getD "otelCollectorEnabled" Json.null),
    ("skipMatchWithUserIntent", src.getD "skipMatchWithUserIntent" Json.null),
    ("installNodeAgent", src.getD "installNodeAgent" Json.null),
    ("clusterOperation", Json.str "CREATE"),
    ("allowGeoPartitioning", Json.bool false),
    ("regionsChanged", Json.bool false),
    ("xclusterInfo", src.getD "xclusterInfo" (Json.obj [])),
    ("targetXClusterConfigs", src.getD "targetXClusterConfigs" (Json.arr [])),
    ("sourceXClusterConfigs", src.getD "sourceXClusterConfigs" (Json.arr []))
  ]
  let base :=
    if (src.getD "rootCA" Json.null).truthy then
      objSet base "rootCA" (src.getD "rootCA" Json.null)
    else base
  let base :=
    if (src.getD "clientRootCA" Json.null).truthy then
      objSet base "clientRootCA" (src.getD "clientRootCA" Json.null)
    else base
  base

/-- Lines 848-920: build the configure payload from the source universe's
details. A missing or non-string nodePrefix makes line 882's `.removesuffix`
raise; a non-object encryptionAtRestConfig makes line 861's `.get` raise; the
node transform's failures propagate. -/
def buildConfigureUniverse (src : Json) (args : ReplicateArgs) : Except PyErr Json :=
  match src.getD "nodeDetailsSet" (Json.arr []) with
  | Json.arr nodes =>
    (match replicate_yba_kubernetes_universe_node_details nodes with
     | Except.error e => Except.error e
     | Except.ok nodeDetails =>
       match src.getD "nodePrefix" Json.null with
       | Json.str pre =>
         (match src.getD "encryptionAtRestConfig" (Json.obj []) with
          | Json.obj encFields =>
            Except.ok (Json.obj (buildConfigureBase src args nodeDetails pre
              ((objGet encFields "encryptionAtRestEnabled").getD (Json.str "UNDEFINED"))))
          | _ => Except.error (PyErr.attributeError "get"))
       | _ => Except.error (PyErr.attributeError "removesuffix"))
  | _ => Except.error PyErr.typeError

/-- Line 942: `del configure_universe['xclusterInfo']['sourceRootCertDirPath']`,
an unconditional deletion that raises KeyError when the key is absent. -/
def delSourceRootCertDirPath (configure_universe : Json) : Except PyErr Json :=
  match configure_universe with
  | Json.obj fields =>
    match objGet fields "xclusterInfo" with
    | some (Json.obj xf) =>
      match objDel xf "sourceRootCertDirPath" with
      | some xf' => Except.ok (Json.obj (objSet fields "xclusterInfo" (Json.obj xf')))
      | none => Except.error (PyErr.keyError "sourceRootCertDirPath")
    | some _ => Except.error PyErr.typeError
    | none => Except.error (PyErr.keyError "xclusterInfo")
  | _ => Except.error PyErr.typeError

/-- Lines 952-955 applied to one cluster of the configure response: put the
caller's passwords back over the redacted fields. -/
def restoreClusterPasswords (ycql ysql : String) (cluster : Json) : Except PyErr Json :=
  match cluster.asObjE with
  | Except.error e => Except.error e
  | Except.ok fields =>
  match objGet fields "userIntent" with
  | none => Except.error (PyErr.keyError "userIntent")
  | some ui =>
  match ui.asObjE with
  | Except.error e => Except.error e
  | Except.ok uif =>
    Except.ok (Json.obj (objSet fields "userIntent"
      (Json.obj (objSet (objSet uif "ycqlPassword" (Json.str ycql))
        "ysqlPassword" (Json.str ysql)))))

/-- Lines 952-955: restore the passwords in every cluster of the configure
response. -/
def restorePasswords (ycql ysql : String) (configured : Json) : Except PyErr Json :=
  match configured with
  | Json.obj fields =>
    match objGet fields "clusters" with
    | some (Json.arr cs) =>
      match exceptMapM (restoreClusterPasswords ycql ysql) cs with
      | Except.error e => Except.error e
      | Except.ok cs' => Except.ok (Json.obj (objSet fields "clusters" (Json.arr cs')))
    | some _ => Except.error PyErr.typeError
    | none => Except.error (PyErr.keyError "clusters")
  | _ => Except.error PyErr.typeError

/-- Lines 815-967: replicate_yba_kubernetes_universe. Returns the ordered trace
of requests issued together with the outcome; an exception or failed request
aborts with the trace accumulated so far. -/
def replicate_yba_kubernetes_universe (args : ReplicateArgs) (env : ReplicateEnv) :
    List UniverseRequest × Except PyErr ReplicateResult :=
  let t1 : List UniverseRequest := [UniverseRequest.findUniverse args.source_name]
  match env.findSourceResp with
  | Except.error e => (t1, Except.error e)
  | Except.ok source_universe_id =>
    match source_universe_id with
    | [sourceId] =>
      let t2 := t1 ++ [UniverseRequest.getUniverse sourceId]
      match env.getSourceResp with
      | Except.error e => (t2, Except.error e)
      | Except.ok sourceResp =>
        match jsonIndex sourceResp "universeDetails" with
        | Except.error e => (t2, Except.error e)
        | Except.ok source_universe =>
          let t3 := t2 ++ [UniverseRequest.findUniverse args.name]
          match env.findDestResp with
          | Except.error e => (t3, Except.error e)
          | Except.ok destination_universe =>
            if destination_universe.isEmpty then
              match buildConfigureUniverse source_universe args with
              | Except.error e => (t3, Except.error e)
              | Except.ok cu0 =>
                match overrideClusters args cu0 with
                | Except.error e => (t3, Except.error e)
                | Except.ok cu1 =>
                  match delSourceRootCertDirPath cu1 with
                  | Except.error e => (t3, Except.error e)
                  | Except.ok configure_universe =>
                    let t4 := t3 ++ [UniverseRequest.configureUniverse configure_universe]
                    match env.configureResp with
                    | Except.error e => (t4, Except.error e)
                    | Except.ok configured_universe =>
                      match restorePasswords args.ycql_password args.ysql_password configured_universe with
                      | Except.error e => (t4, Except.error e)
                      | Except.ok restored =>
                        if args.what_if then
                          (t4, Except.ok (ReplicateResult.previewDoc restored))
                        else
                          let t5 := t4 ++ [UniverseRequest.createUniverse restored]
                          match env.createResp with
                          | Except.error e => (t5, Except.error e)
                          | Except.ok resp => (t5, Except.ok (ReplicateResult.created resp))
            else
              (t3, Except.error (PyErr.runtimeError
                ("A universe named " ++ args.name ++ " already exists")))
    | _ =>
      (t1, Except.error (PyErr.runtimeError
        ("Unable to find an existing source universe named " ++ args.source_name)))

/-
Concrete sample documents used by witness theorems.
-/

/-- The node-transform keys copied verbatim from the source node in both the
master and the non-master branch: the role flags other than isRedisServer,
and every port field. -/
def copiedNodeKeys : List String :=
  ["isMaster", "isTserver", "isYqlServer", "isYsqlServer",
   "masterHttpPort", "masterRpcPort", "tserverHttpPort", "tserverRpcPort",
   "ybControllerHttpPort", "ybControllerRpcPort", "redisServerHttpPort",
   "redisServerRpcPort", "yqlServerHttpPort", "yqlServerRpcPort",
   "ysqlServerHttpPort", "ysqlServerRpcPort", "internalYsqlServerRpcPort",
   "nodeExporterPort", "otelCollectorMetricsPort"]

/-- A minimal master node. -/
def sampleMasterNode : Json := Json.obj [("isMaster", Json.bool true)]

/-- The transform of `sampleMasterNode`, spelled out. -/
def sampleMasterNodeOut : Json := Json.obj [
  ("nodeIdx", Json.null),
  ("cloudInfo", Json.obj []),
  ("azUuid", Json.null),
  ("placementUuid", Json.null),
  ("disksAreMountedByUUID", Json.null),
  ("ybPrebuiltAmi", Json.null),
  ("autoSyncMasterAddrs", Json.null),
  ("state", Json.str "ToBeAdded"),
  ("isMaster", Json.bool true),
  ("masterHttpPort", Json.null),
  ("masterRpcPort", Json.null),
  ("isTserver", Json.null),
  ("tserverHttpPort", Json.null),
  ("tserverRpcPort", Json.null),
  ("ybControllerHttpPort", Json.null),
  ("ybControllerRpcPort", Json.null),
  ("redisServerHttpPort", Json.null),
  ("redisServerRpcPort", Json.null),
  ("isYqlServer", Json.null),
  ("yqlServerHttpPort", Json.null),
  ("yqlServerRpcPort", Json.null),
  ("isYsqlServer", Json.null),
  ("ysqlServerHttpPort", Json.null),
  ("ysqlServerRpcPort", Json.null),
  ("internalYsqlServerRpcPort", Json.null),
  ("nodeExporterPort", Json.null),
  ("otelCollectorMetricsPort", Json.null),
  ("cronsActive", Json.null),
  ("dedicatedTo", Json.str "MASTER"),
  ("masterState", Json.str "ToStart"),
  ("isRedisServer", Json.bool true)
]

/-- A source universe definition sufficient for a full replication run. -/
def sampleSourceDetails : Json := Json.obj [
  ("nodePrefix", Json.str "yb-admin-src"),
  ("clusters", Json.arr [Json.obj [("userIntent", Json.obj [])]]),
  ("xclusterInfo", Json.obj [("sourceRootCertDirPath", Json.str "/opt/yugabyte/certs")])
]

/-- A source universe definition whose xclusterInfo is absent (so it defaults
to the empty document, which lacks sourceRootCertDirPath). -/
def sampleSourceNoXc : Json := Json.obj [
  ("nodePrefix", Json.str "yb-admin-src"),
  ("clusters", Json.arr [])
]

/-- Replication arguments for the create path. -/
def sampleArgsCreate : ReplicateArgs := {
  source_name := "src", name := "dst",
  ycql_password := "pw1", ysql_password := "pw2",
  tserver_cpus := none, tserver_memory := none,
  master_cpus := none, master_memory := none, tserver_storage := none,
  what_if := false, universe_id := "11111111-2222-3333-4444-555555555555" }

/-- Replication arguments for the preview path. -/
def sampleArgsPreview : ReplicateArgs := { sampleArgsCreate with what_if := true }

/-- The configure endpoint's (redacting) response used by the sample runs. -/
def sampleConfigured : Json :=
  Json.obj [("clusters", Json.arr [Json.obj [("userIntent", Json.obj [])]])]

/-- `sampleConfigured` with the caller's passwords restored. -/
def sampleRestored : Json :=
  Json.obj [("clusters", Json.arr [Json.obj [("userIntent",
    Json.obj [("ycqlPassword", Json.str "pw1"), ("ysqlPassword", Json.str "pw2")])]])]

/-- Oracle responses for a fully successful replication run. -/
def sampleEnvCreate : ReplicateEnv := {
  findSourceResp := Except.ok ["u-src-1"],
  getSourceResp := Except.ok (Json.obj [("universeDetails", sampleSourceDetails)]),
  findDestResp := Except.ok [],
  configureResp := Except.ok sampleConfigured,
  createResp := Except.ok (Json.obj [("taskUUID", Json.str "t-99")]) }

/-- Oracle responses for a run whose destination name is already taken. -/
def sampleEnvDestTaken : ReplicateEnv := {
  sampleEnvCreate with findDestResp := Except.ok ["u-dst-1"] }

/-- Oracle responses for a run whose source universe lacks xclusterInfo. -/
def sampleEnvNoXc : ReplicateEnv := {
  sampleEnvCreate with
  getSourceResp := Except.ok (Json.obj [("universeDetails", sampleSourceNoXc)]) }

/-- A release artifact for the x86_64 architecture. -/
def sampleArtifactX86 : Artifact :=
  { package_url := "http://pkg/x86.tgz", platform := "LINUX", architecture := "x86_64",
    extra := [] }

/-- An inventory release holding only the x86_64 artifact. -/
def sampleReleaseV : Release :=
  { version := "2.20.0.0", release_uuid := "ru-1", artifacts := [sampleArtifactX86], extra := [] }

/-- Extracted metadata resolving to the version and architecture already present. -/
def sampleMetaX86 : ExtractedMeta :=
  { version := "2.20.0.0", yb_type := "YBDB", platform := "LINUX", architecture := "x86_64",
    release_type := "LTS", release_date_msecs := 1700000000000 }

/-- Extracted metadata for the same version but a new architecture. -/
def sampleMetaArm : ExtractedMeta := { sampleMetaX86 with architecture := "aarch64" }

/-
Helper lemmas about the dict operations.
-/

theorem objGet_cons (k k' : String) (v : Json) (rest : List (String × Json)) :
    objGet ((k', v) :: rest) k = if k' == k then some v else objGet rest k := by
  cases h : k' == k <;> simp [objGet, List.find?, h]

theorem objGet_objSet_self (o : List (String × Json)) (k : String) (v : Json) :
    objGet (objSet o k v) k = some v := by
  induction o with
  | nil => simp [objSet, objGet_cons]
  | cons p rest ih =>
    rcases p with ⟨k', v'⟩
    cases h : k' == k
    · simp [objSet, h, objGet_cons, ih]
    · simp [objSet, h, objGet_cons]

theorem objGet_objSet_ne (o : List (String × Json)) (k k' : String) (v : Json)
    (h : k' ≠ k) : objGet (objSet o k v) k' = objGet o k' := by
  induction o with
  | nil =>
    have hk : (k == k') = false := by simp [BEq.beq]; exact fun hh => h hh.symm
    simp [objSet, objGet_cons, hk, objGet]
  | cons p rest ih =>
    rcases p with ⟨k'', v''⟩
    cases hb : k'' == k
    · simp [objSet, hb, objGet_cons, ih]
    · have hk : k'' = k := by simpa using hb
      have h1 : (k == k') = false := by simp; exact fun hh => h hh.symm
      have h2 : (k'' == k') = false := by simp [hk]; exact fun hh => h hh.symm
      simp [objSet, hb, objGet_cons, h1, h2]

theorem objHas_filter_self (o : List (String × Json)) (k : String) :
    objHas (o.filter (fun p => p.1 != k)) k = false := by
  induction o with
  | nil => rfl
  | cons p rest ih =>
    rcases p with ⟨k', v'⟩
    cases h : k' == k
    · rw [List.filter_cons_of_pos (by simp [bne, h])]
      simp only [objHas, List.any_cons, h, Bool.false_or]
      exact ih
    · rw [List.filter_cons_of_neg (by simp [bne, h])]
      exact ih

theorem objHas_delIfPresent_self (o : List (String × Json)) (k : String) :
    objHas (objDelIfPresent o k) k = false := by
  unfold objDelIfPresent
  cases h : objHas o k
  · simp [h]
  · simp [h, objHas_filter_self]

theorem objHas_filter_ne (o : List (String × Json)) (k k' : String) (h : k' ≠ k) :
    objHas (o.filter (fun p => p.1 != k)) k' = objHas o k' := by
  induction o with
  | nil => rfl
  | cons p rest ih =>
    rcases p with ⟨k'', v''⟩
    cases hb : k'' == k
    · rw [List.filter_cons_of_pos (by simp [bne, hb])]
      simp only [objHas, List.any_cons] at ih ⊢
      rw [ih]
    · have hk : k'' = k := by simpa using hb
      have hc : (k'' == k') = false := by
        subst hk
        simp only [beq_eq_false_iff_ne, ne_eq]
        exact fun hcc => h hcc.symm
      rw [List.filter_cons_of_neg (by simp [bne, hb])]
      simp only [objHas, List.any_cons, hc, Bool.false_or] at ih ⊢
      exact ih

theorem objHas_delIfPresent_ne (o : List (String × Json)) (k k' : String)
    (h : k' ≠ k) : objHas (objDelIfPresent o k) k' = objHas o k' := by
  unfold objDelIfPresent
  cases hh : objHas o k
  · simp
  · simp [objHas_filter_ne o k k' h]

theorem exceptMapM_ok_get {α β ε : Type} (f : α → Except ε β) :
    ∀ (l : List α) (l' : List β), exceptMapM f l = Except.ok l' →
    ∀ (i : Nat) (a : α) (b : β), l.get? i = some a → l'.get? i = some b →
    f a = Except.ok b := by
  intro l
  induction l with
  | nil =>
    intro l' h i a b ha hb
    simp [exceptMapM] at h
    subst h
    simp at ha
  | cons x xs ih =>
    intro l' h i a b ha hb
    simp only [exceptMapM] at h
    rcases hx : f x with e | bx <;> rw [hx] at h
    · simp at h
    · rcases hxs : exceptMapM f xs with e2 | bs <;> rw [hxs] at h
      · simp at h
      · simp at h
        subst h
        cases i with
        | zero =>
          rw [List.get?_cons_zero] at ha hb
          cases ha
          cases hb
          exact hx
        | succ n =>
          rw [List.get?_cons_succ] at ha hb
          exact ih bs hxs n a b ha hb

theorem exceptMapM_ok_mem {α β ε : Type} (f : α → Except ε β) :
    ∀ (l : List α) (l' : List β), exceptMapM f l = Except.ok l' →
    ∀ b ∈ l', ∃ a ∈ l, f a = Except.ok b := by
  intro l
  induction l with
  | nil =>
    intro l' h b hb
    simp [exceptMapM] at h
    subst h
    simp at hb
  | cons x xs ih =>
    intro l' h b hb
    simp only [exceptMapM] at h
    rcases hx : f x with e | bx <;> rw [hx] at h
    · simp at h
    · rcases hxs : exceptMapM f xs with e2 | bs <;> rw [hxs] at h
      · simp at h
      · simp at h
        subst h
        rcases List.mem_cons.mp hb with hb1 | hb2
        · exact ⟨x, List.mem_cons_self x xs, hb1 ▸ hx⟩
        · obtain ⟨a, ha, hfa⟩ := ih bs hxs b hb2
          exact ⟨a, List.mem_cons_of_mem x ha, hfa⟩

theorem find_release_by_version {releases : List Release} {r : Release} {v : String}
    (hmem : r ∈ releases) (hver : r.version = v)
    (huniq : ∀ x ∈ releases, x.version = v → x = r) :
    releases.find? (fun x => x.version == v) = some r := by
  induction releases with
  | nil => cases hmem
  | cons a rest ih =>
    rcases List.mem_cons.mp hmem with h | h
    · subst h
      simp [List.find?, hver]
    · by_cases ha : a.version = v
      · have haa : a = r := huniq a (List.mem_cons_self a rest) ha
        subst haa
        simp [List.find?, ha]
      · have hb : (a.version == v) = false := by simp [ha]
        simp only [List.find?, hb]
        exact ih h (fun x hx hxv => huniq x (List.mem_cons_of_mem a hx) hxv)

/-- Claim C1: within the wait budget, the task poller returns the fetched task
object exactly when its percent equals 100 (whatever the status) or its status
is Failure or Aborted; otherwise it keeps polling with that task recorded as
the last fetched one. -/
theorem task_poller_terminal_condition
    (wait_timeout elapsed : Int) (t : TaskResp) (rest : List (Int × TaskFetch))
    (last : Option TaskResp) (h : elapsed < wait_timeout) :
    ((t.percent = 100 ∨ t.status = "Failure" ∨ t.status = "Aborted") →
      pollLoop wait_timeout ((elapsed, TaskFetch.ok t) :: rest) last =
        InvokeOutcome.returned t) ∧
    (¬(t.percent = 100 ∨ t.status = "Failure" ∨ t.status = "Aborted") →
      pollLoop wait_timeout ((elapsed, TaskFetch.ok t) :: rest) last =
        pollLoop wait_timeout rest (some t)) := by
  constructor
  · intro hc
    have hfin : taskFinished t = true := by
      simp only [taskFinished, Bool.or_eq_true, beq_iff_eq]
      tauto
    simp [pollLoop, h, hfin]
  · intro hc
    have hfin : taskFinished t = false := by
      simp only [taskFinished, Bool.or_eq_false_iff, beq_eq_false_iff_ne, ne_eq]
      push_neg at hc
      exact ⟨hc.1, hc.2.2, hc.2.1⟩
    simp [pollLoop, h, hfin]

theorem task_poller_terminal_condition_witness :
    ((0:Int) < 600 ∧ ((100:Int) = 100 ∨ "Running" = "Failure" ∨ "Running" = "Aborted")) ∧
    pollLoop 600 [((0:Int), TaskFetch.ok { percent := 100, status := "Running" })] none =
      InvokeOutcome.returned { percent := 100, status := "Running" } :=
  ⟨⟨by decide, Or.inl rfl⟩,
   (task_poller_terminal_condition 600 0 { percent := 100, status := "Running" } [] none
     (by decide)).1 (Or.inl rfl)⟩

/-- Claim C7 counterexample: with waiting requested, a task handle and a
customer id present, a wait budget that is already exhausted when the loop is
first entered does not return a task object silently — the return statement
reads the never-assigned loop variable and raises (UnboundLocalError), because
no fetch has happened yet. -/
theorem poll_timeout_at_entry_unbound_local_cex :
    invokeWaitPhase true "c1" (Json.obj [("taskUUID", Json.str "t-1")]) 0
      [((0:Int), TaskFetch.ok { percent := 50, status := "Running" })] =
      InvokeOutcome.unboundLocal := rfl

/-- Claim C7 (amended): when the wait budget is exhausted at a loop test, the
poller returns the last fetched task object as-is, raising no error, provided
at least one fetch has occurred; if the budget is exhausted before the first
fetch, the call instead fails with an unbound-local error. -/
theorem poll_timeout_returns_last_fetched
    (wait_timeout elapsed : Int) (f : TaskFetch) (rest : List (Int × TaskFetch))
    (t : TaskResp) (h : ¬ elapsed < wait_timeout) :
    pollLoop wait_timeout ((elapsed, f) :: rest) (some t) = InvokeOutcome.returned t ∧
    pollLoop wait_timeout ((elapsed, f) :: rest) none = InvokeOutcome.unboundLocal := by
  constructor <;> simp [pollLoop, h]

theorem poll_timeout_returns_last_fetched_witness :
    (¬ (700:Int) < 600) ∧
    pollLoop 600 [((700:Int), TaskFetch.ok { percent := 50, status := "Running" })]
      (some { percent := 60, status := "Running" }) =
      InvokeOutcome.returned { percent := 60, status := "Running" } :=
  ⟨by decide,
   (poll_timeout_returns_last_fetched 600 700
     (TaskFetch.ok { percent := 50, status := "Running" }) []
     { percent := 60, status := "Running" } (by decide)).1⟩

/-- Claim C2: when the inventory holds a release with the extracted version
(version being a unique key, per the data model) and that release already has
an artifact with the extracted architecture, the reconciler returns the
existing release unchanged and issues no create or update request; in
particular, when that release is the result of a prior reconcile that appended
the architecture's artifact to a list holding none, it keeps exactly one
artifact for that architecture. -/
theorem release_reconcile_existing_artifact_noop
    (releases : List Release) (r : Release) (meta : ExtractedMeta) (package_url : String)
    (hmem : r ∈ releases) (hver : r.version = meta.version)
    (huniq : ∀ x ∈ releases, x.version = meta.version → x = r)
    (hart : ∃ a ∈ r.artifacts, a.architecture = meta.architecture) :
    reconcileRelease releases meta package_url = ReleaseResult.existing r ∧
    releaseRequests (reconcileRelease releases meta package_url) = [] ∧
    (∀ pre a0, r.artifacts = pre ++ [a0] →
      (∀ a ∈ pre, a.architecture ≠ meta.architecture) →
      a0.architecture = meta.architecture →
      r.artifacts.countP (fun a => a.architecture == meta.architecture) = 1) := by
  have hfind : releases.find? (fun x => x.version == meta.version) = some r :=
    find_release_by_version hmem hver huniq
  obtain ⟨a, ha, haa⟩ := hart
  have hsome : ∃ p, r.artifacts.find?
      (fun package => package.architecture == meta.architecture) = some p := by
    rcases hfa : r.artifacts.find?
        (fun package => package.architecture == meta.architecture) with _ | p
    · rw [List.find?_eq_none] at hfa
      exact absurd (by simp [haa]) (hfa a ha)
    · exact ⟨p, hfa⟩
  obtain ⟨p, hp⟩ := hsome
  refine ⟨?_, ?_, ?_⟩
  · simp [reconcileRelease, hfind, hp]
  · simp [reconcileRelease, hfind, hp, releaseRequests]
  · intro pre a0 hsplit hpre ha0
    rw [hsplit, List.countP_append]
    have h0 : pre.countP (fun a => a.architecture == meta.architecture) = 0 :=
      List.countP_eq_zero.mpr (fun a ha => by simp [hpre a ha])
    simp [h0, List.countP_cons, ha0]

theorem release_reconcile_existing_artifact_noop_witness :
    reconcileRelease [sampleReleaseV] sampleMetaX86 "http://pkg/x86.tgz" =
      ReleaseResult.existing sampleReleaseV ∧
    releaseRequests (reconcileRelease [sampleReleaseV] sampleMetaX86 "http://pkg/x86.tgz") =
      [] :=
  ⟨(release_reconcile_existing_artifact_noop [sampleReleaseV] sampleReleaseV sampleMetaX86
      "http://pkg/x86.tgz" (by decide) (by decide) (by decide) (by decide)).1,
   (release_reconcile_existing_artifact_noop [sampleReleaseV] sampleReleaseV sampleMetaX86
      "http://pkg/x86.tgz" (by decide) (by decide) (by decide) (by decide)).2.1⟩

/-- Claim C3: when the inventory holds a release with the extracted version
(version unique, per the data model) but no artifact with the extracted
architecture, the reconciler issues exactly one full update whose payload is
that release with the single new artifact appended at the tail — all prior
artifacts preserved in order and every other field untouched — and the call's
result is the update's response. -/
theorem release_reconcile_appends_new_architecture
    (releases : List Release) (r : Release) (meta : ExtractedMeta) (package_url : String)
    (hmem : r ∈ releases) (hver : r.version = meta.version)
    (huniq : ∀ x ∈ releases, x.version = meta.version → x = r)
    (hnone : ∀ a ∈ r.artifacts, a.architecture ≠ meta.architecture) :
    reconcileRelease releases meta package_url =
      ReleaseResult.updateResponse r.release_uuid
        { r with artifacts := r.artifacts ++
            [{ package_url := package_url, platform := meta.platform,
               architecture := meta.architecture, extra := [] }] } ∧
    releaseRequests (reconcileRelease releases meta package_url) =
      [ReleaseRequest.updateRelease r.release_uuid
        { r with artifacts := r.artifacts ++
            [{ package_url := package_url, platform := meta.platform,
               architecture := meta.architecture, extra := [] }] }] := by
  have hfind : releases.find? (fun x => x.version == meta.version) = some r :=
    find_release_by_version hmem hver huniq
  have hfa : r.artifacts.find?
      (fun package => package.architecture == meta.architecture) = none :=
    List.find?_eq_none.mpr (fun a ha => by simp [hnone a ha])
  constructor <;> simp [reconcileRelease, hfind, hfa, releaseRequests]

theorem release_reconcile_appends_new_architecture_witness :
    reconcileRelease [sampleReleaseV] sampleMetaArm "http://pkg/arm.tgz" =
      ReleaseResult.updateResponse sampleReleaseV.release_uuid
        { sampleReleaseV with artifacts := sampleReleaseV.artifacts ++
            [{ package_url := "http://pkg/arm.tgz", platform := sampleMetaArm.platform,
               architecture := sampleMetaArm.architecture, extra := [] }] } ∧
    releaseRequests (reconcileRelease [sampleReleaseV] sampleMetaArm "http://pkg/arm.tgz") =
      [ReleaseRequest.updateRelease sampleReleaseV.release_uuid
        { sampleReleaseV with artifacts := sampleReleaseV.artifacts ++
            [{ package_url := "http://pkg/arm.tgz", platform := sampleMetaArm.platform,
               architecture := sampleMetaArm.architecture, extra := [] }] }] :=
  release_reconcile_appends_new_architecture [sampleReleaseV] sampleReleaseV sampleMetaArm
    "http://pkg/arm.tgz" (by decide) (by decide) (by decide) (by decide)

/-- Claim C8: when the extraction loop ends with a metadata document lacking a
version field, create_yba_release aborts with no mutating request issued — but
the error raised is not the intended ValueError carrying the raw response: the
f-string at line 589 evaluates `metadata.text` on a parsed dict and so raises
an AttributeError carrying only the attribute name, losing the diagnostics. -/
theorem release_missing_version_attribute_error :
    create_yba_release_run (Except.ok (Json.obj [("resourceUUID", Json.str "job-1")]))
      [((0:Int), MetaFetch.ok (Json.obj [("status", Json.str "error")])),
       ((1:Int), MetaFetch.ok (Json.obj [("status", Json.str "error")]))]
      (Except.ok []) "http://pkg/yb.tgz" =
      ([], ReleaseRunResult.failed (PyErr.attributeError "text")) := rfl

/-- Claim C5 counterexample: role flags are not all copied verbatim — a
non-master source node carrying isRedisServer = true is transformed into a
node with no isRedisServer key at all, because the target dict literal of the
active transform omits that flag. -/
theorem node_transform_drops_redis_flag_cex :
    (Json.obj [("isMaster", Json.bool false), ("isRedisServer", Json.bool true)]).hasKey
      "isRedisServer" = true ∧
    (replicate_yba_kubernetes_universe_node_details
      [Json.obj [("isMaster", Json.bool false), ("isRedisServer", Json.bool true)]]).map
      (fun outs => outs.map (fun out => out.hasKey "isRedisServer")) =
      Except.ok [false] :=
  ⟨rfl, rfl⟩

/-- Claim C5 (amended): for every transformed node, the cloudInfo carries no
kubernetesPodName, kubernetesNamespace or private_ip key; the lifecycle state
is forced to ToBeAdded; the role flags other than isRedisServer and all port
fields are copied verbatim; a node with truthy isMaster additionally gets
masterState ToStart, isRedisServer true and dedicatedTo MASTER; a node without
it has no isRedisServer key at all and keeps its source dedicatedTo. -/
theorem node_transform_contract
    (nodes outs : List Json) (i : Nat) (nf : List (String × Json)) (out : Json)
    (h : replicate_yba_kubernetes_universe_node_details nodes = Except.ok outs)
    (hin : nodes.get? i = some (Json.obj nf))
    (hout : outs.get? i = some out) :
    (out.getD "cloudInfo" Json.null).hasKey "kubernetesPodName" = false ∧
    (out.getD "cloudInfo" Json.null).hasKey "kubernetesNamespace" = false ∧
    (out.getD "cloudInfo" Json.null).hasKey "private_ip" = false ∧
    out.getD "state" Json.null = Json.str "ToBeAdded" ∧
    (∀ k ∈ copiedNodeKeys, out.getD k Json.null = nodeGet nf k) ∧
    ((nodeGet nf "isMaster").truthy = true →
      out.getD "masterState" Json.null = Json.str "ToStart") ∧
    ((nodeGet nf "isMaster").truthy = true →
      out.getD "isRedisServer" Json.null = Json.bool true) ∧
    ((nodeGet nf "isMaster").truthy = true →
      out.getD "dedicatedTo" Json.null = Json.str "MASTER") ∧
    ((nodeGet nf "isMaster").truthy = false → out.hasKey "isRedisServer" = false) ∧
    ((nodeGet nf "isMaster").truthy = false →
      out.getD "dedicatedTo" Json.null = nodeGet nf "dedicatedTo") := by
  have ht : transformNode (Json.obj nf) = Except.ok out :=
    exceptMapM_ok_get transformNode nodes outs h i (Json.obj nf) out hin hout
  rw [transformNode] at ht
  simp only [Json.asObjE] at ht
  rcases hci : (objGet nf "cloudInfo").getD (Json.obj []) with _ | b | n | s | es | cif <;>
    rw [hci] at ht <;> simp only [cleanCloudInfo] at ht
  case null => cases ht
  case bool => cases ht
  case num => cases ht
  case str => cases ht
  case arr => cases ht
  case obj =>
  cases hm : (nodeGet nf "isMaster").truthy <;> simp only [hm, if_true, if_false,
    Bool.false_eq_true, Bool.true_eq_false, Except.ok.injEq] at ht <;> subst ht
  · refine ⟨?_, ?_, ?_, rfl, ?_, ?_, ?_, ?_, ?_, ?_⟩
    · show objHas (objDelIfPresent (objDelIfPresent (objDelIfPresent cif
        "kubernetesPodName") "kubernetesNamespace") "private_ip") "kubernetesPodName" = false
      rw [objHas_delIfPresent_ne _ _ _ (by decide), objHas_delIfPresent_ne _ _ _ (by decide),
        objHas_delIfPresent_self]
    · show objHas (objDelIfPresent (objDelIfPresent (objDelIfPresent cif
        "kubernetesPodName") "kubernetesNamespace") "private_ip") "kubernetesNamespace" = false
      rw [objHas_delIfPresent_ne _ _ _ (by decide), objHas_delIfPresent_self]
    · show objHas (objDelIfPresent (objDelIfPresent (objDelIfPresent cif
        "kubernetesPodName") "kubernetesNamespace") "private_ip") "private_ip" = false
      rw [objHas_delIfPresent_self]
    · intro k hk
      fin_cases hk <;> rfl
    · intro hx
      exact absurd hx (by simp [hm])
    · intro hx
      exact absurd hx (by simp [hm])
    · intro hx
      exact absurd hx (by simp [hm])
    · intro _
      rfl
    · intro _
      rfl
  · refine ⟨?_, ?_, ?_, rfl, ?_, ?_, ?_, ?_, ?_, ?_⟩
    · show objHas (objDelIfPresent (objDelIfPresent (objDelIfPresent cif
        "kubernetesPodName") "kubernetesNamespace") "private_ip") "kubernetesPodName" = false
      rw [objHas_delIfPresent_ne _ _ _ (by decide), objHas_delIfPresent_ne _ _ _ (by decide),
        objHas_delIfPresent_self]
    · show objHas (objDelIfPresent (objDelIfPresent (objDelIfPresent cif
        "kubernetesPodName") "kubernetesNamespace") "private_ip") "kubernetesNamespace" = false
      rw [objHas_delIfPresent_ne _ _ _ (by decide), objHas_delIfPresent_self]
    · show objHas (objDelIfPresent (objDelIfPresent (objDelIfPresent cif
        "kubernetesPodName") "kubernetesNamespace") "private_ip") "private_ip" = false
      rw [objHas_delIfPresent_self]
    · intro k hk
      fin_cases hk <;> rfl
    · intro _
      rfl
    · intro _
      rfl
    · intro _
      rfl
    · intro hx
      exact absurd hx (by simp [hm])
    · intro hx
      exact absurd hx (by simp [hm])

theorem node_transform_contract_witness :
    replicate_yba_kubernetes_universe_node_details [sampleMasterNode] =
      Except.ok [sampleMasterNodeOut] ∧
    sampleMasterNodeOut.getD "state" Json.null = Json.str "ToBeAdded" ∧
    sampleMasterNodeOut.getD "masterState" Json.null = Json.str "ToStart" ∧
    sampleMasterNodeOut.getD "isRedisServer" Json.null = Json.bool true ∧
    sampleMasterNodeOut.getD "dedicatedTo" Json.null = Json.str "MASTER" ∧
    (sampleMasterNodeOut.getD "cloudInfo" Json.null).hasKey "kubernetesPodName" = false := by
  have h := node_transform_contract [sampleMasterNode] [sampleMasterNodeOut] 0
    [("isMaster", Json.bool true)] sampleMasterNodeOut rfl rfl rfl
  exact ⟨rfl, h.2.2.2.1, h.2.2.2.2.2.1 rfl, h.2.2.2.2.2.2.1 rfl,
    h.2.2.2.2.2.2.2.1 rfl, h.1⟩

/-- Claim C4 counterexample: when the destination name already resolves, the
replicator has issued three requests — the two name lookups with the full
source-universe fetch between them — not only the two lookup calls. -/
theorem replicate_dest_taken_three_requests_cex :
    (replicate_yba_kubernetes_universe sampleArgsCreate sampleEnvDestTaken).1 =
      [UniverseRequest.findUniverse "src", UniverseRequest.getUniverse "u-src-1",
       UniverseRequest.findUniverse "dst"] ∧
    (replicate_yba_kubernetes_universe sampleArgsCreate sampleEnvDestTaken).1.length = 3 ∧
    (replicate_yba_kubernetes_universe sampleArgsCreate sampleEnvDestTaken).2 =
      Except.error (PyErr.runtimeError "A universe named dst already exists") :=
  ⟨rfl, rfl, rfl⟩

/-- Claim C4 (amended): when the destination name already resolves to at least
one universe, the replicator aborts with a descriptive business-rule failure
immediately after the destination lookup; the only requests issued are the two
name lookups and the intervening source-universe fetch, and no mutating
request occurs. -/
theorem replicate_dest_taken_aborts
    (args : ReplicateArgs) (env : ReplicateEnv) (sid : String) (uResp src : Json)
    (dst : List String)
    (hs : env.findSourceResp = Except.ok [sid])
    (hg : env.getSourceResp = Except.ok uResp)
    (hu : jsonIndex uResp "universeDetails" = Except.ok src)
    (hd : env.findDestResp = Except.ok dst)
    (hne : dst ≠ []) :
    replicate_yba_kubernetes_universe args env =
      ([UniverseRequest.findUniverse args.source_name, UniverseRequest.getUniverse sid,
        UniverseRequest.findUniverse args.name],
       Except.error (PyErr.runtimeError
         ("A universe named " ++ args.name ++ " already exists"))) := by
  have hne' : dst.isEmpty = false := by
    rcases dst with _ | ⟨d, ds⟩
    · exact absurd rfl hne
    · rfl
  simp [replicate_yba_kubernetes_universe, hs, hg, hu, hd, hne']

theorem replicate_dest_taken_aborts_witness :
    replicate_yba_kubernetes_universe sampleArgsCreate sampleEnvDestTaken =
      ([UniverseRequest.findUniverse "src", UniverseRequest.getUniverse "u-src-1",
        UniverseRequest.findUniverse "dst"],
       Except.error (PyErr.runtimeError "A universe named dst already exists")) :=
  replicate_dest_taken_aborts sampleArgsCreate sampleEnvDestTaken "u-src-1"
    (Json.obj [("universeDetails", sampleSourceDetails)]) sampleSourceDetails
    ["u-dst-1"] rfl rfl rfl rfl (by decide)

theorem objGet_ite_objSet (o : List (String × Json)) (c : Bool) (k k' : String) (v : Json)
    (hk : k ≠ k') :
    objGet (if c = true then objSet o k v else o) k' = objGet o k' := by
  cases c
  · simp
  · simp [objGet_objSet_ne o k k' v (fun hh => hk hh.symm)]

theorem objGet_buildConfigureBase_xcluster (src : Json) (args : ReplicateArgs)
    (nodeDetails : List Json) (pre : String) (encVal : Json) :
    objGet (buildConfigureBase src args nodeDetails pre encVal) "xclusterInfo" =
      some (src.getD "xclusterInfo" (Json.obj [])) := by
  simp only [buildConfigureBase]
  rw [objGet_ite_objSet _ _ _ _ _ (by decide), objGet_ite_objSet _ _ _ _ _ (by decide)]
  rfl

theorem buildConfigure_xcluster {src : Json} {args : ReplicateArgs} {cu0 : Json}
    (h : buildConfigureUniverse src args = Except.ok cu0) :
    ∃ bf, cu0 = Json.obj bf ∧
      objGet bf "xclusterInfo" = some (src.getD "xclusterInfo" (Json.obj [])) := by
  rw [buildConfigureUniverse] at h
  split at h <;> try cases h
  split at h <;> try cases h
  split at h <;> try cases h
  split at h <;> try cases h
  exact ⟨_, rfl, objGet_buildConfigureBase_xcluster _ _ _ _ _⟩

theorem overrideClusters_xcluster {args : ReplicateArgs} {cu0 cu1 : Json}
    (h : overrideClusters args cu0 = Except.ok cu1) :
    ∃ f0 f1, cu0 = Json.obj f0 ∧ cu1 = Json.obj f1 ∧
      objGet f1 "xclusterInfo" = objGet f0 "xclusterInfo" := by
  rcases cu0 with _ | b | n | s | es | f0 <;> rw [overrideClusters] at h <;> try cases h
  split at h <;> try cases h
  split at h <;> try cases h
  exact ⟨_, _, rfl, rfl, objGet_objSet_ne _ _ _ _ (by decide)⟩

theorem delSourceRootCertDirPath_keyError {f1 xf : List (String × Json)}
    (hget : objGet f1 "xclusterInfo" = some (Json.obj xf))
    (hk : objHas xf "sourceRootCertDirPath" = false) :
    delSourceRootCertDirPath (Json.obj f1) =
      Except.error (PyErr.keyError "sourceRootCertDirPath") := by
  simp only [delSourceRootCertDirPath, hget, objDel, hk]
  rfl

/-- Claim C10: a valid replication run whose source universe's xclusterInfo
sub-document lacks the sourceRootCertDirPath key — in particular when
xclusterInfo is absent and defaults to the empty document — fails with a
KeyError raised by the unconditional deletion at line 942, before the
configure request (or any later request) is issued. -/
theorem replicate_missing_xcluster_cert_path_key_error
    (args : ReplicateArgs) (env : ReplicateEnv) (sid : String) (uResp src cu0 cu1 : Json)
    (hs : env.findSourceResp = Except.ok [sid])
    (hg : env.getSourceResp = Except.ok uResp)
    (hu : jsonIndex uResp "universeDetails" = Except.ok src)
    (hd : env.findDestResp = Except.ok [])
    (hb : buildConfigureUniverse src args = Except.ok cu0)
    (ho : overrideClusters args cu0 = Except.ok cu1)
    (hxo : (src.getD "xclusterInfo" (Json.obj [])).isObject = true)
    (hx : (src.getD "xclusterInfo" (Json.obj [])).hasKey "sourceRootCertDirPath" = false) :
    replicate_yba_kubernetes_universe args env =
      ([UniverseRequest.findUniverse args.source_name, UniverseRequest.getUniverse sid,
        UniverseRequest.findUniverse args.name],
       Except.error (PyErr.keyError "sourceRootCertDirPath")) := by
  rcases hxv : src.getD "xclusterInfo" (Json.obj []) with _ | b | n | s | es | xf <;>
    rw [hxv] at hxo hx <;> simp only [Json.isObject] at hxo <;> try cases hxo
  case obj =>
    obtain ⟨bf, hcu0, hbg⟩ := buildConfigure_xcluster hb
    obtain ⟨f0, f1, hf0, hf1, hpres⟩ := overrideClusters_xcluster ho
    rw [hcu0] at hf0
    have hbf : bf = f0 := by
      cases hf0
      rfl
    subst hbf
    have hget1 : objGet f1 "xclusterInfo" = some (Json.obj xf) := by
      rw [hpres, hbg, hxv]
    have hdel : delSourceRootCertDirPath cu1 =
        Except.error (PyErr.keyError "sourceRootCertDirPath") := by
      rw [hf1]
      exact delSourceRootCertDirPath_keyError hget1 (by simpa [Json.hasKey] using hx)
    simp [replicate_yba_kubernetes_universe, hs, hg, hu, hd, hb, ho, hdel]

theorem replicate_missing_xcluster_cert_path_key_error_witness :
    replicate_yba_kubernetes_universe sampleArgsCreate sampleEnvNoXc =
      ([UniverseRequest.findUniverse "src", UniverseRequest.getUniverse "u-src-1",
        UniverseRequest.findUniverse "dst"],
       Except.error (PyErr.keyError "sourceRootCertDirPath")) :=
  replicate_missing_xcluster_cert_path_key_error sampleArgsCreate sampleEnvNoXc "u-src-1"
    (Json.obj [("universeDetails", sampleSourceNoXc)]) sampleSourceNoXc _ _
    rfl rfl rfl rfl rfl rfl rfl rfl

theorem restoreClusterPasswords_fields {ycql ysql : String} {c c' : Json}
    (h : restoreClusterPasswords ycql ysql c = Except.ok c') :
    (c'.getD "userIntent" Json.null).getD "ycqlPassword" Json.null = Json.str ycql ∧
    (c'.getD "userIntent" Json.null).getD "ysqlPassword" Json.null = Json.str ysql := by
  rw [restoreClusterPasswords] at h
  split at h <;> try cases h
  split at h <;> try cases h
  split at h <;> try cases h
  constructor
  · simp only [Json.getD, objGet_objSet_self, Option.getD_some]
    rw [objGet_objSet_ne _ _ _ _ (by decide), objGet_objSet_self]
    rfl
  · simp only [Json.getD, objGet_objSet_self, Option.getD_some]

theorem restorePasswords_clusters {ycql ysql : String} {u u' : Json} {cs : List Json}
    (h : restorePasswords ycql ysql u = Except.ok u')
    (hcs : u'.getD "clusters" Json.null = Json.arr cs) :
    ∀ c ∈ cs,
      (c.getD "userIntent" Json.null).getD "ycqlPassword" Json.null = Json.str ycql ∧
      (c.getD "userIntent" Json.null).getD "ysqlPassword" Json.null = Json.str ysql := by
  rcases u with _ | b | n | s | es | fields <;> rw [restorePasswords] at h <;>
    try exact Except.noConfusion h
  split at h <;> try exact Except.noConfusion h
  rename_i x0 cs0 hget
  split at h <;> try exact Except.noConfusion h
  rename_i xe cs1 hmap
  cases h
  simp only [Json.getD, objGet_objSet_self, Option.getD_some, Json.arr.injEq] at hcs
  subst hcs
  intro c hc
  obtain ⟨c0, hc0, hok⟩ :=
    exceptMapM_ok_mem (restoreClusterPasswords ycql ysql) cs0 cs1 hmap c hc
  exact restoreClusterPasswords_fields hok

/-- Claim C6: in every replication run whose configure call succeeds, the
document handed to the create endpoint (equally the preview document): every
cluster of its clusters list carries the caller-supplied ycqlPassword and
ysqlPassword values, not the redacted placeholders of the configure response. -/
theorem replicate_payload_passwords_restored
    (args : ReplicateArgs) (env : ReplicateEnv) (sid : String)
    (uResp src cu0 cu1 cfg cu restored c : Json) (cs : List Json)
    (hs : env.findSourceResp = Except.ok [sid])
    (hg : env.getSourceResp = Except.ok uResp)
    (hu : jsonIndex uResp "universeDetails" = Except.ok src)
    (hd : env.findDestResp = Except.ok [])
    (hb : buildConfigureUniverse src args = Except.ok cu0)
    (ho : overrideClusters args cu0 = Except.ok cu1)
    (hdel : delSourceRootCertDirPath cu1 = Except.ok cfg)
    (hconf : env.configureResp = Except.ok cu)
    (hrest : restorePasswords args.ycql_password args.ysql_password cu = Except.ok restored)
    (hwf : args.what_if = false)
    (hcs : restored.getD "clusters" Json.null = Json.arr cs)
    (hc : c ∈ cs) :
    (replicate_yba_kubernetes_universe args env).1 =
      [UniverseRequest.findUniverse args.source_name, UniverseRequest.getUniverse sid,
       UniverseRequest.findUniverse args.name, UniverseRequest.configureUniverse cfg,
       UniverseRequest.createUniverse restored] ∧
    (c.getD "userIntent" Json.null).getD "ycqlPassword" Json.null =
      Json.str args.ycql_password ∧
    (c.getD "userIntent" Json.null).getD "ysqlPassword" Json.null =
      Json.str args.ysql_password := by
  obtain ⟨h1, h2⟩ := restorePasswords_clusters hrest hcs c hc
  refine ⟨?_, h1, h2⟩
  rcases hcr : env.createResp with e | resp <;>
    simp [replicate_yba_kubernetes_universe, hs, hg, hu, hd, hb, ho, hdel, hconf,
      hrest, hwf, hcr]

theorem replicate_payload_passwords_restored_witness :
    (replicate_yba_kubernetes_universe sampleArgsCreate sampleEnvCreate).1.getLast? =
      some (UniverseRequest.createUniverse sampleRestored) ∧
    ((Json.obj [("userIntent", Json.obj [("ycqlPassword", Json.str "pw1"),
        ("ysqlPassword", Json.str "pw2")])]).getD "userIntent" Json.null).getD
      "ycqlPassword" Json.null = Json.str "pw1" ∧
    ((Json.obj [("userIntent", Json.obj [("ycqlPassword", Json.str "pw1"),
        ("ysqlPassword", Json.str "pw2")])]).getD "userIntent" Json.null).getD
      "ysqlPassword" Json.null = Json.str "pw2" := by
  have h := replicate_payload_passwords_restored sampleArgsCreate sampleEnvCreate "u-src-1"
    (Json.obj [("universeDetails", sampleSourceDetails)]) sampleSourceDetails _ _ _
    sampleConfigured sampleRestored
    (Json.obj [("userIntent", Json.obj [("ycqlPassword", Json.str "pw1"),
      ("ysqlPassword", Json.str "pw2")])])
    [Json.obj [("userIntent", Json.obj [("ycqlPassword", Json.str "pw1"),
      ("ysqlPassword", Json.str "pw2")])]]
    rfl rfl rfl rfl rfl rfl rfl rfl rfl rfl rfl (List.mem_cons_self _ _)
  refine ⟨?_, h.2.1, h.2.2⟩
  rw [h.1]
  rfl

/-- Claim C9: when preview (what_if) is requested and the configure call
succeeds, the replicator returns the expanded-but-uncommitted configured
document with the passwords restored, and submits no create request. -/
theorem replicate_preview_returns_document
    (args : ReplicateArgs) (env : ReplicateEnv) (sid : String)
    (uResp src cu0 cu1 cfg cu restored : Json)
    (hs : env.findSourceResp = Except.ok [sid])
    (hg : env.getSourceResp = Except.ok uResp)
    (hu : jsonIndex uResp "universeDetails" = Except.ok src)
    (hd : env.findDestResp = Except.ok [])
    (hb : buildConfigureUniverse src args = Except.ok cu0)
    (ho : overrideClusters args cu0 = Except.ok cu1)
    (hdel : delSourceRootCertDirPath cu1 = Except.ok cfg)
    (hconf : env.configureResp = Except.ok cu)
    (hrest : restorePasswords args.ycql_password args.ysql_password cu = Except.ok restored)
    (hwf : args.what_if = true) :
    (replicate_yba_kubernetes_universe args env).2 =
      Except.ok (ReplicateResult.previewDoc restored) ∧
    (replicate_yba_kubernetes_universe args env).1 =
      [UniverseRequest.findUniverse args.source_name, UniverseRequest.getUniverse sid,
       UniverseRequest.findUniverse args.name, UniverseRequest.configureUniverse cfg] ∧
    (replicate_yba_kubernetes_universe args env).1.all
      (fun req => !req.isCreate) = true := by
  refine ⟨?_, ?_, ?_⟩ <;>
    simp [replicate_yba_kubernetes_universe, hs, hg, hu, hd, hb, ho, hdel, hconf,
      hrest, hwf, UniverseRequest.isCreate]

theorem replicate_preview_returns_document_witness :
    (replicate_yba_kubernetes_universe sampleArgsPreview sampleEnvCreate).2 =
      Except.ok (ReplicateResult.previewDoc sampleRestored) ∧
    (replicate_yba_kubernetes_universe sampleArgsPreview sampleEnvCreate).1.all
      (fun req => !req.isCreate) = true := by
  have h := replicate_preview_returns_document sampleArgsPreview sampleEnvCreate "u-src-1"
    (Json.obj [("universeDetails", sampleSourceDetails)]) sampleSourceDetails _ _ _
    sampleConfigured sampleRestored rfl rfl rfl rfl rfl rfl rfl rfl rfl rfl
  exact ⟨h.1, h.2.2⟩
